/-
Verification of the OpenAL Soft header-generator scripts
(`registry/scripts/reg.py` and `registry/scripts/genheaders.py`)
against their natural-language specification.

The Python sources are shallowly embedded below:

* Python strings are `String`; the handful of string methods the scripts
  use (`strip`, `splitlines`, `split`, `replace`, `startswith`, `upper`,
  left-justified format padding, ...) are re-implemented as executable
  Lean functions with Python's semantics (the scripts only ever produce
  `\n` newlines, so `splitlines` is modelled for `\n`).
* Python dicts are association lists with *latest-binding-wins* lookup.
  Nothing proved here depends on a dict's iteration order, so insertion
  order is not modelled.
* `xml.etree.ElementTree` elements are an inductive `Element` tree with
  `tag`/`attrib`/`text`/`children`/`tail`, enough to express `find`,
  `findall(".//a/b")`, `iter`, and the scripts' `innertext`.
* Fallible Python code (statements that can raise `AttributeError`,
  `KeyError`, `IndexError`, `ValueError`, `TypeError`) is embedded in
  `Except String`.
-/
import Mathlib

namespace OpenALGen

/-! ### Python string primitives -/

/-- Characters stripped by Python's `str.strip()` with no arguments. -/
def pyIsSpace (c : Char) : Bool :=
  c = ' ' ∨ c = '\t' ∨ c = '\n' ∨ c = '\r' ∨ c = '\x0b' ∨ c = '\x0c'

/-- Python `str.strip()`. -/
def pyStrip (s : String) : String :=
  String.mk (((s.data.dropWhile pyIsSpace).reverse.dropWhile pyIsSpace).reverse)

/-- Python `str.rstrip(cs)` for a set of characters `cs`. -/
def pyRStrip (s : String) (cs : List Char) : String :=
  String.mk ((s.data.reverse.dropWhile (cs.contains ·)).reverse)

/-- Python `str.startswith(p)`. -/
def pyStartsWith (s p : String) : Bool :=
  p.data.isPrefixOf s.data

/-- Python `c in s` for a single character. -/
def pyHasChar (s : String) (c : Char) : Bool :=
  s.data.contains c

/-- Length of a Python string (code points; our strings are ASCII). -/
def pyLen (s : String) : Nat :=
  s.data.length

/-- Python `s[n:]`. -/
def pyDrop (s : String) (n : Nat) : String :=
  String.mk (s.data.drop n)

/-- Core of Python `str.split(sep)` for a non-empty separator, over
character lists, with explicit fuel so that it is structurally recursive
(and hence kernel-evaluable).  `acc` holds the current chunk, reversed. -/
def pySplitAux (sep : List Char) : Nat → List Char → List Char → List (List Char)
  | _, [], acc => [acc.reverse]
  | 0, cs, acc => [acc.reverse ++ cs]
  | fuel + 1, c :: cs, acc =>
    if sep.isPrefixOf (c :: cs) then
      acc.reverse :: pySplitAux sep fuel (List.drop sep.length (c :: cs)) []
    else
      pySplitAux sep fuel cs (c :: acc)

/-- Python `str.split(sep)` for a non-empty separator. -/
def pySplit (s sep : String) : List String :=
  (pySplitAux sep.data s.data.length s.data []).map String.mk

/-- Python `str.join`. -/
def pyJoin (sep : String) (parts : List String) : String :=
  match parts with
  | [] => ""
  | p :: ps => ps.foldl (fun acc q => acc ++ sep ++ q) p

/-- Python `str.replace(old, new)` for a non-empty `old`
(equal to `new.join(s.split(old))`). -/
def pyReplace (s old new : String) : String :=
  pyJoin new (pySplit s old)

/-- Python `str.splitlines()` for strings whose only line separator is
`\n` (the only one these scripts produce). -/
def pySplitlines (s : String) : List String :=
  if s = "" then []
  else
    let parts := pySplit s "\n"
    if parts.getLast? = some "" then parts.dropLast else parts

/-- Python format spec `f"{s:<{n}}"`: left-justify, pad to `n` with spaces. -/
def pyLjust (s : String) (n : Nat) : String :=
  s ++ String.mk (List.replicate (n - pyLen s) ' ')

/-- Python `str.upper()` (ASCII). -/
def pyUpper (s : String) : String :=
  String.mk (s.data.map Char.toUpper)

/-- Python `str.title()`, approximated for ASCII: a letter that follows a
non-letter is uppercased, other letters are lowercased. -/
def pyTitleAux : Bool → List Char → List Char
  | _, [] => []
  | prevAlpha, c :: cs =>
    if c.isAlpha then
      (if prevAlpha then c.toLower else c.toUpper) :: pyTitleAux true cs
    else
      c :: pyTitleAux false cs

/-- Python `str.title()`. -/
def pyTitle (s : String) : String :=
  String.mk (pyTitleAux false s.data)

/-- Python `sub in s` (substring containment). -/
def pyContains (s sub : String) : Bool :=
  (pySplit s sub).length > 1

/-- Python truthiness / `x or y` over optional strings
(`None` and `""` are falsy). -/
def pyOrStr (a b : Option String) : Option String :=
  match a with
  | some s => if s = "" then b else some s
  | none => b

/-- `str(x)` for an optional value, as used in f-strings
(`None` formats as `"None"`). -/
def pyFormatOpt (a : Option String) : String :=
  match a with
  | some s => s
  | none => "None"

/-- `os.path.basename` (the component after the last `/`). -/
def pyBasename (s : String) : String :=
  ((pySplit s "/").getLast?).getD ""

/-! ### Python dicts (association lists, latest binding first) -/

/-- A Python dict, modelled as an association list where the most recent
binding for a key shadows older ones.  Iteration order of the real dict
is not modelled (no claim depends on it). -/
abbrev Dict (α β : Type) := List (α × β)

/-- `d[k] = v`. -/
def dictSet {α β : Type} (d : Dict α β) (k : α) (v : β) : Dict α β :=
  (k, v) :: d

/-- `d.get(k)`. -/
def dictGet {α β : Type} [BEq α] (d : Dict α β) (k : α) : Option β :=
  match d.find? (fun p => p.1 == k) with
  | some p => some p.2
  | none => none

/-- `d.get(k, default)`. -/
def dictGetD {α β : Type} [BEq α] (d : Dict α β) (k : α) (dflt : β) : β :=
  (dictGet d k).getD dflt

theorem dictGet_dictSet_self {α β : Type} [BEq α] [LawfulBEq α]
    (d : Dict α β) (k : α) (v : β) : dictGet (dictSet d k v) k = some v := by
  simp [dictGet, dictSet, List.find?]

theorem dictGet_dictSet_ne {α β : Type} [BEq α] [LawfulBEq α]
    (d : Dict α β) (k k' : α) (v : β) (h : k' ≠ k) :
    dictGet (dictSet d k v) k' = dictGet d k' := by
  simp only [dictGet, dictSet, List.find?]
  have : (k == k') = false := by simp [beq_iff_eq]; exact fun hh => h hh.symm
  simp [this]

/-! ### `xml.etree.ElementTree` elements -/

/-- An XML element as exposed by `xml.etree.ElementTree`: tag name,
attribute dict, text before the first child, child elements, and the
tail text that follows the element's own closing tag. -/
inductive Element : Type where
  | mk (tag : String) (attrib : List (String × String)) (text : Option String)
       (children : List Element) (tail : Option String)

def Element.tag : Element → String
  | .mk t _ _ _ _ => t

def Element.attrib : Element → List (String × String)
  | .mk _ a _ _ _ => a

def Element.text : Element → Option String
  | .mk _ _ t _ _ => t

def Element.children : Element → List Element
  | .mk _ _ _ c _ => c

def Element.tail : Element → Option String
  | .mk _ _ _ _ t => t

/-- `e.attrib.get(k)`. -/
def Element.attr (e : Element) (k : String) : Option String :=
  dictGet e.attrib k

/-- `e.find(tag)`: first *direct* child with the given tag. -/
def Element.findChild (e : Element) (tag : String) : Option Element :=
  e.children.find? (fun c => c.tag == tag)

/-- `e.findall(tag)`: all direct children with the given tag. -/
def Element.findChildren (e : Element) (tag : String) : List Element :=
  e.children.filter (fun c => c.tag == tag)

mutual
/-- All proper descendants of an element, in document (pre-)order. -/
def Element.descendants : Element → List Element
  | .mk _ _ _ children _ => Element.descendantsList children

def Element.descendantsList : List Element → List Element
  | [] => []
  | c :: cs => c :: Element.descendants c ++ Element.descendantsList cs
end

/-- `root.findall(".//tag")`: all proper descendants with the given tag,
in document order (the `ElementTree.findall` the scripts call delegates
to the root element). -/
def Element.findAllDesc (e : Element) (tag : String) : List Element :=
  e.descendants.filter (fun c => c.tag == tag)

/-- `root.findall(".//a/b")`: children with tag `b` of descendants with
tag `a`. -/
def Element.findAllDescPath (e : Element) (a b : String) : List Element :=
  (e.findAllDesc a).flatMap (fun p => p.findChildren b)

mutual
/-- `e.iter(tag)`: the element itself (if its tag matches) and all
descendants with the given tag, in document order. -/
def Element.iterTag (e : Element) (tag : String) : List Element :=
  match e with
  | .mk t _ _ children _ =>
    (if t = tag then [e] else []) ++ Element.iterTagList children tag

def Element.iterTagList : List Element → String → List Element
  | [], _ => []
  | c :: cs, tag => Element.iterTag c tag ++ Element.iterTagList cs tag
end

mutual
/-- `reg.innertext(tag, recurse_fn)`: the text of the element, the inner
text of every child accepted by `keep` (the filter is applied at every
recursion level), and the element's tail text.  Note that the *top*
element's tail is included too, and that a rejected child contributes
neither its text nor its tail. -/
def innertext (keep : Element → Bool) : Element → String
  | .mk _ _ text children tail =>
    text.getD "" ++ innertextList keep children ++ tail.getD ""

def innertextList (keep : Element → Bool) : List Element → String
  | [] => ""
  | c :: cs =>
    (if keep c then innertext keep c else "") ++ innertextList keep cs
end

/-- `innertext` with no filter (`recurse_fn=None`). -/
def innertextAll (e : Element) : String :=
  innertext (fun _ => true) e

/-- `innertext(e, lambda x: x.tag != "name")`, the filter used for
base types, return types and parameter types. -/
def innertextNoName (e : Element) : String :=
  innertext (fun c => c.tag ≠ "name") e

/-- A deterministic stand-in for Python's `repr` of an element
(`"<Element 'tag' at 0x...>"`); the memory address is abstracted away. -/
def elemRepr (e : Element) : String :=
  "<Element " ++ e.tag ++ ">"

/-- A value that is either a Python `str` or an `Element` object, as
produced by `type.attrib.get("name") or type.find("name")` in
`Registry.__init__`. -/
inductive StrOrElem : Type where
  | str (s : String)
  | elem (e : Element)

/-- `str(x)` / f-string formatting of a `StrOrElem`. -/
def StrOrElem.format : StrOrElem → String
  | .str s => s
  | .elem e => elemRepr e

/-! ### The `reg.py` data model -/

/-- `reg.Parameter`.  `name` is `p.find("name").text`, which Python
stores without a `strip` and which may be `None`. -/
structure Parameter where
  type : String
  name : Option String
  repr : String

/-- `reg.Command`.  The source's `namespace` field is spelled `nspace`
here because `namespace` is a Lean keyword. -/
structure Command where
  name : String
  nspace : String
  return_type : String
  parameters : List Parameter
  pfn_name : String
  export_ : Option String := none
  doc : Option (List String) := none
  deprecated : Option String := none

/-- `reg.Include`.  Its `name` is whatever
`type.attrib.get("name") or type.find("name")` produced. -/
structure Include where
  name : StrOrElem

/-- `reg.Property`.  All attribute reads except `on` use `.get`, so the
fields are optional. -/
structure Property where
  on_ : String
  type : Option String
  range : Option String
  default : Option String
  value_class : Option String := none

/-- `reg.Enum`. -/
structure Enum where
  name : String
  value : String
  property : Option Property
  groups : Option (List String) := none
  doc : Option (List String) := none
  deprecated : Option String := none

/-- `reg.Typedef` (a `<type category="basetype">`).  Its `name` field
receives the raw `name` variable, which is a `str` or an `Element`. -/
structure Typedef where
  type : String
  name : StrOrElem
  repr : String
  doc : Option (List String) := none
  deprecated : Option String := none

/-- `reg.Verbatim` (any other `<type>`).  `category` comes from `.get`,
so it may be absent; `name` receives the raw `name` variable. -/
structure Verbatim where
  name : StrOrElem
  category : Option String
  repr : String
  doc : Option (List String) := none
  deprecated : Option String := none

/-- `reg.Api`: the union of declaration kinds stored in
`Registry.apis` (plus `Include`, which the registry also stores there). -/
inductive Api : Type where
  | command (c : Command)
  | enum (e : Enum)
  | typedef (t : Typedef)
  | verbatim (v : Verbatim)
  | incl (i : Include)

/-- `reg.Requirement`. -/
structure Requirement where
  apis : List String
  comment : Option String := none
  api_specific : Option String := none

/-- `reg.ApiSet`. -/
structure ApiSet where
  is_feature : Bool
  name : String
  api : List String
  require : List Requirement
  annex : Option String := none
  doc : Option (List String) := none

/-- A key of the Python dict `Registry.apis`.  The dict is keyed by
whatever value was used in the subscript: usually a `str`, but the
basetype branch of `Registry.__init__` subscripts with the `name`
*element object* itself.  Distinct element objects are identified here
up to structure (no claim distinguishes two structurally equal element
keys); a string key never equals an element key, which is the fact the
proofs rely on. -/
inductive PyKey : Type where
  | str (s : String)
  | elemK (e : Element)

mutual
def elemBeq : Element → Element → Bool
  | .mk t1 a1 x1 c1 l1, .mk t2 a2 x2 c2 l2 =>
    t1 == t2 && a1 == a2 && x1 == x2 && elemBeqList c1 c2 && l1 == l2

def elemBeqList : List Element → List Element → Bool
  | [], [] => true
  | c :: cs, d :: ds => elemBeq c d && elemBeqList cs ds
  | _, _ => false
end

instance : BEq Element := ⟨elemBeq⟩

def PyKey.beq : PyKey → PyKey → Bool
  | .str a, .str b => a == b
  | .elemK a, .elemK b => elemBeq a b
  | _, _ => false

instance : BEq PyKey := ⟨PyKey.beq⟩

/-- The dict key obtained from subscripting with the `name` variable. -/
def keyOf : StrOrElem → PyKey
  | .str s => .str s
  | .elem e => .elemK e

/-- `reg.Registry`.  `writtenAttr` models the Python *instance*
attribute `written`: `Registry.__init__` never assigns `self.written`,
so a freshly parsed registry has no instance attribute (`none`) and
attribute lookup falls back to the single dict created at class
definition time (`written: typing.Dict[str, str] = dict()`), which is
shared by every instance.  `genheaders.main` replaces it per instance on
a `ResetRegistryState` entry; see `WrittenHeap` below. -/
structure Registry where
  apis : Dict PyKey Api
  sets : Dict String ApiSet
  groups : Dict String (List String)
  writtenAttr : Option Nat := none

/-! ### `reg.py` parsing (`Registry.__init__` and `doc_from_element`) -/

/-- `reg.doc_from_element`.  Errors model the `AttributeError` raised by
`rest_of_doc.text.strip()` when the `<comment>` element has no text. -/
def doc_from_element (e : Element) : Except String (Option (List String)) :=
  let top_doc := e.attr "comment"
  let rest_of_doc := e.findChild "comment"
  match top_doc, rest_of_doc with
  | none, none => .ok none
  | _, _ =>
    let base : List String :=
      match top_doc with
      | some t => [t] ++ (if rest_of_doc.isSome then [""] else [])
      | none => []
    match rest_of_doc with
    | none => .ok (some base)
    | some r =>
      match r.text with
      | none => .error "AttributeError: NoneType has no attribute strip"
      | some t => .ok (some (base ++ (pySplitlines (pyStrip t)).map pyStrip))

/-- One `<enum>` of the group-collection loop at the top of
`Registry.__init__`: split the `group` attribute on commas, strip, skip
empty entries, and append the enum's name to each named group (the
in-place list mutation of the source is modelled as rebinding the
group's entry).  `enum.attrib["name"]` raises `KeyError` if absent. -/
def procGroupsEnum (g : Dict String (List String)) (enum : Element) :
    Except String (Dict String (List String)) :=
  (pySplit ((enum.attr "group").getD "") ",").foldlM
    (fun g grp =>
      let grp := pyStrip grp
      if grp = "" then .ok g
      else
        match enum.attr "name" with
        | none => .error "KeyError: name"
        | some n => .ok (dictSet g grp (dictGetD g grp [] ++ [n])))
    g

/-- The `return_type` helper nested in `Registry.__init__`. -/
def return_type (proto : Element) : String :=
  pyStrip (innertextNoName proto)

/-- One `<type>` of the types loop of `Registry.__init__`.  Notes on
faithfulness: (1) the `basetype` branch is *not* terminated by
`continue`, so after storing a `Typedef` under the raw `name` value the
code falls through to the Verbatim store; (2) the Verbatim store
subscripts with `name.text.strip()`, which raises `AttributeError` when
`name` is a `str` (from the `name` attribute) or when the name element
has no text. -/
def procType (apis : Dict PyKey Api) (notices : List String) (type : Element) :
    Except String (Dict PyKey Api × List String) := do
  let namev : Option StrOrElem :=
    match type.attr "name" with
    | some s => if s = "" then (type.findChild "name").map .elem else some (.str s)
    | none => (type.findChild "name").map .elem
  match namev with
  | none => return (apis, notices ++ ["Skipping: " ++ elemRepr type])
  | some name =>
    let category := type.attr "category"
    if category = some "include" then
      return (dictSet apis (keyOf name) (.incl ⟨name⟩), notices)
    else
      let doc ← doc_from_element type
      let deprecated := type.attr "deprecated"
      let apis1 :=
        if category = some "basetype" then
          let type_deffed := pyStrip (innertextNoName type)
          let type_deffed :=
            if pyStartsWith type_deffed "typedef" then pyStrip (pyDrop type_deffed 7)
            else type_deffed
          dictSet apis (keyOf name)
            (.typedef { type := type_deffed, name := name, repr := innertextAll type,
                        doc := doc, deprecated := deprecated })
        else apis
      match name with
      | .str _ => .error "AttributeError: str object has no attribute text"
      | .elem e =>
        match e.text with
        | none => .error "AttributeError: NoneType has no attribute strip"
        | some t =>
          return (dictSet apis1 (.str (pyStrip t))
            (.verbatim { name := name, category := category,
                         repr := pyStrip (innertextAll type),
                         doc := doc, deprecated := deprecated }), notices)

/-- One `<command>` of the commands loop of `Registry.__init__`.  A
command without a `<proto>` child raises `AttributeError`
(`proto.find("name")` is evaluated before the `name is None` check), as
does a `<param>` without a `<name>` child. -/
def procCommand (nspace : String) (apis : Dict PyKey Api) (notices : List String)
    (command : Element) : Except String (Dict PyKey Api × List String) := do
  match command.findChild "proto" with
  | none => .error "AttributeError: NoneType object has no attribute find"
  | some proto =>
    let params := command.findChildren "param"
    match proto.findChild "name" with
    | none => return (apis, notices ++ ["Skipping: " ++ elemRepr command])
    | some nameEl =>
      match nameEl.text with
      | none => .error "AttributeError: NoneType has no attribute strip"
      | some nt =>
        let name := pyStrip nt
        let parameters ← params.mapM (fun p =>
          match p.findChild "name" with
          | none => .error "AttributeError: NoneType object has no attribute text"
          | some pn =>
            .ok ({ type := innertextNoName p, name := pn.text,
                   repr := innertextAll p } : Parameter))
        let doc ← doc_from_element command
        return (dictSet apis (.str name)
          (.command { name := name, nspace := nspace, return_type := return_type proto,
                      parameters := parameters,
                      pfn_name := (command.attr "funcpointer").getD ("LP" ++ pyUpper name),
                      export_ := command.attr "export", doc := doc,
                      deprecated := command.attr "deprecated" }), notices)

/-- One `<enum>` of the enum loop of `Registry.__init__`.  An enum
missing `name` or `value` is skipped *silently*; re-binding an existing
name silently overwrites it (there is no duplicate check or warning
anywhere in the constructor).  `property.attrib["on"]` raises `KeyError`
when absent. -/
def procEnum (apis : Dict PyKey Api) (enum : Element) :
    Except String (Dict PyKey Api) := do
  match enum.attr "name", enum.attr "value" with
  | some name, some value =>
    let value := pyStrip value
    let property ← match enum.findChild "property" with
      | none => .ok none
      | some p =>
        match p.attr "on" with
        | none => .error "KeyError: on"
        | some onv =>
          .ok (some ({ on_ := onv, type := p.attr "type",
                       range := pyOrStr (p.attr "group") (p.attr "range"),
                       default := p.attr "default",
                       value_class := p.attr "class" } : Property))
    let groups := (enum.attr "group").map (fun g => (pySplit g ",").map pyStrip)
    let doc ← doc_from_element enum
    return dictSet apis (.str (pyStrip name))
      (.enum { name := name, value := value, property := property, groups := groups,
               doc := doc, deprecated := enum.attr "deprecated" })
  | _, _ => return apis

/-- One `<feature>` or `<extension>` of the sets loop of
`Registry.__init__`. -/
def procApiSet (sets : Dict String ApiSet) (e : Element) :
    Except String (Dict String ApiSet) := do
  match e.attr "name" with
  | none => .error "KeyError: name"
  | some name =>
    let api ←
      if e.tag = "feature" then
        match e.attr "api" with
        | none => .error "KeyError: api"
        | some a => pure [a]
      else
        match e.attr "supported" with
        | none => .error "KeyError: supported"
        | some s => pure (pySplit s "|")
    let require := (e.children.filter (fun x => x.tag == "require")).map (fun x =>
      ({ apis := (x.children.filter (fun y => (y.attr "name").isSome)).map
           (fun y => (y.attr "name").getD ""),
         comment := x.attr "comment",
         api_specific := x.attr "api" } : Requirement))
    let doc ← doc_from_element e
    return dictSet sets name
      { is_feature := e.tag = "feature", name := name, api := api,
        require := require, annex := e.attr "annex", doc := doc }

/-- `reg.Registry.__init__`: the whole parse, returning the registry and
the console notices printed along the way.  A raised Python exception is
an `Except.error`. -/
def parseRegistry (root : Element) : Except String (Registry × List String) := do
  let enumsEls := root.findAllDescPath "enums" "enum"
  let groups ← enumsEls.foldlM procGroupsEnum ([] : Dict String (List String))
  let typesEls := root.findAllDescPath "types" "type"
  let (apis, notices) ← typesEls.foldlM (fun st t => procType st.1 st.2 t)
    (([] : Dict PyKey Api), ([] : List String))
  let (apis, notices) ← (root.findAllDesc "commands").foldlM
    (fun st cg => (cg.iterTag "command").foldlM
      (fun st c => procCommand ((cg.attr "namespace").getD "AL") st.1 st.2 c) st)
    (apis, notices)
  let apis ← enumsEls.foldlM procEnum apis
  let setsEls := root.findAllDesc "feature" ++ root.findAllDescPath "extensions" "extension"
  let sets ← setsEls.foldlM procApiSet ([] : Dict String ApiSet)
  return ({ apis := apis, sets := sets, groups := groups, writtenAttr := none }, notices)

/-! ### `reg.render_doc_comment` (Documentation Renderer) -/

/-- `DOC_MAX_COLS` from `reg.py` (`80 - 3`). -/
def DOC_MAX_COLS : Nat := 77

/-- The `render_range` helper nested in `reg.render_doc_comment`
(`padCols` is the source's `prefix_cols`).  For a numeric range
(\"..\" present) note that the upper bound is emitted as
`bounds[1][1:]` when it contains `=` and as `f"<{bounds[1][1:]}"`
otherwise — the first character of the upper bound is dropped in *both*
cases. -/
def render_range (range_str : String) (padCols : Nat) : List String :=
  if pyContains range_str ".." then
    let bounds := pySplit range_str ".."
    let b0 := bounds.headD ""
    let b1 := (bounds[1]?).getD ""
    let upper :=
      if (bounds.filter (fun x => pyStrip x ≠ "")).length > 1 then
        if pyHasChar b1 '=' then pyDrop b1 1 else "<" ++ pyDrop b1 1
      else ""
    [pyLjust "Range: " padCols ++ "[" ++ b0 ++ " - " ++ upper ++ "]"]
  else
    let value_range := (pySplit range_str ",").map pyStrip
    let ret0 := pyLjust "Range: " padCols ++ (if value_range.length > 1 then "[" else "")
    let folded := value_range.enum.foldl
      (fun (acc : List String × String) iv =>
        let lines := acc.1
        let ret := acc.2
        if iv.1 = 0 then (lines, ret ++ iv.2)
        else if pyLen ret + 2 + pyLen iv.2 + 1 > DOC_MAX_COLS then
          (lines ++ [ret ++ ","], String.mk (List.replicate (padCols + 1) ' ') ++ iv.2)
        else (lines, ret ++ ", " ++ iv.2))
      ([], ret0)
    let ret := if value_range.length > 1 then folded.2 ++ "]" else folded.2
    folded.1 ++ [ret]

/-- The property-metadata lines appended by `reg.render_doc_comment`
when a `property` is given: label column width, `Type:`, `Range:`
(group-expanded through `registry.groups`), handle-class `Range:`, and
`Default:`. -/
def propertyLines (p : Property) (registry : Registry) : List String :=
  let cols : Nat :=
    if p.default.isSome then 9
    else if p.range.isSome ∨ p.value_class.isSome then 7
    else 6
  (match p.type with
   | some t => [pyLjust "Type: " cols ++ pyReplace t "," ", "]
   | none => [])
  ++ (match p.range with
      | some r =>
        let r := match dictGet registry.groups r with
          | some gr => pyJoin "," gr
          | none => r
        render_range r cols
      | none => [])
  ++ (match p.value_class with
      | some vc => [pyLjust "Range: " cols ++ "any valid " ++ pyTitle vc ++ " ID"]
      | none => [])
  ++ (match p.default with
      | some d =>
        let d := if pyHasChar d ',' then "\x7b" ++ pyReplace d "," ", " ++ "\x7d" else d
        [pyLjust "Default: " cols ++ d]
      | none => [])

/-- `reg.render_doc_comment`. -/
def render_doc_comment (documentation : Option (List String)) (registry : Registry)
    (property : Option Property := none) : String :=
  match documentation with
  | none => ""
  | some [] => ""
  | some (d0 :: drest) =>
    let docs := d0 :: drest
    let extended_docs := docs.length > 2 ∧ pyStrip (docs.getD 1 "") = ""
    let doclines := [d0]
    let doclines :=
      if ¬ extended_docs ∧ docs.length > 1 then
        doclines ++ drest ++ (if property.isSome then [""] else [])
      else doclines
    let doclines := doclines ++ (match property with
      | some p => propertyLines p registry
      | none => [])
    let doclines := if extended_docs then doclines ++ drest else doclines
    match doclines with
    | [] => ""
    | [l] => "/** " ++ l ++ " */\n"
    | _ =>
      "/**\n" ++ String.join (doclines.map (fun line => pyRStrip (" * " ++ line) [' '] ++ "\n"))
        ++ " */\n"

/-! ### `genheaders.render_api` (Declaration Renderer) -/

/-- `ENUM_NAME_COLS` from `genheaders.py`. -/
def ENUM_NAME_COLS : Nat := 49

/-- `genheaders.render_api`: renders one declaration, returning the text
and any console output it printed.  `Except.error` models the
`ValueError`/`TypeError`/`AttributeError`/`IndexError` exits of the
source (including the `raise TypeError` fall-through, which an
`Include` value reaches). -/
def render_api (api : Api) (pfn : Bool) (registry : Registry) (header : Bool) :
    Except String (String × List String) :=
  match api with
  | .command c =>
    let params :=
      if c.parameters.isEmpty then (if header then "(void)" else "()")
      else "(" ++ pyJoin ", " (c.parameters.map (fun x => pyStrip x.repr)) ++ ")"
    let is_void := pyStrip c.return_type = "void"
    let lhs_ret := if is_void then "void" else "auto"
    let rhs_ret := if is_void then "" else " -> " ++ c.return_type
    if pfn then
      if header then
        .ok ("typedef " ++ c.return_type ++ " (" ++ c.nspace ++ "_APIENTRY *"
          ++ c.pfn_name ++ ")" ++ params ++ " " ++ c.nspace ++ "_API_NOEXCEPT17;", [])
      else
        .ok ("using " ++ c.pfn_name ++ " = " ++ lhs_ret ++ " (" ++ c.nspace ++ "_APIENTRY*)"
          ++ params ++ " " ++ c.nspace ++ "_API_NOEXCEPT" ++ rhs_ret ++ ";", [])
    else
      let exportStr := if c.export_.isSome then c.nspace ++ "_API " else ""
      let doc := render_doc_comment c.doc registry
      if header then
        .ok (doc ++ exportStr ++ c.return_type ++ " " ++ c.nspace ++ "_APIENTRY "
          ++ c.name ++ params ++ " " ++ c.nspace ++ "_API_NOEXCEPT;", [])
      else
        .ok (doc ++ exportStr ++ lhs_ret ++ " " ++ c.nspace ++ "_APIENTRY "
          ++ c.name ++ params ++ " " ++ c.nspace ++ "_API_NOEXCEPT" ++ rhs_ret ++ ";", [])
  | .enum e =>
    let doc := render_doc_comment e.doc registry e.property
    if header then
      .ok (doc ++ pyLjust ("#define " ++ e.name ++ " ") ENUM_NAME_COLS ++ e.value, [])
    else
      let deprecated := match e.deprecated with
        | some d => " [[deprecated(\"" ++ d ++ "\")]] "
        | none => ""
      .ok (doc ++ pyLjust ("ENUMDCL " ++ e.name ++ deprecated ++ " = ") ENUM_NAME_COLS
        ++ e.value ++ ";", [])
  | .typedef t =>
    if header then .ok (render_doc_comment t.doc registry ++ t.repr, [])
    else .ok (render_doc_comment t.doc registry ++ "using " ++ t.name.format ++ " = "
      ++ t.type ++ ";", [])
  | .verbatim v =>
    if header then .ok (render_doc_comment v.doc registry ++ v.repr, [])
    else if v.category = some "basetype" then
      .ok ("", ["Warning: verbatim basetype not being handled for modules today, define "
        ++ v.name.format ++ " in preamble"])
    else if v.category ≠ some "funcpointer" then
      let define := pyStrip (pyReplace v.repr (" " ++ v.name.format ++ " ") "")
      let define := if pyStartsWith define "#define" then pyStrip (pyDrop define 7) else define
      match define.data with
      | [] => .error "IndexError: string index out of range"
      | c :: _ =>
        if c = '"' ∧ (define.data.getLast?).getD ' ' = '"' then
          .error "AttributeError: Verbatim object has no attribute namespace"
        else .ok ("", [])
    else
      let type := pyStrip v.repr
      if pyStartsWith type "typedef" then
        let type := pyStrip (pyDrop type 7)
        match v.name with
        | .elem _ => .error "TypeError: in string requires string as left operand"
        | .str nm =>
          if pyContains type nm then
            let type := pyRStrip (pyReplace type nm "") [';']
            if pyHasChar type '(' then
              let ret_t := pyStrip (String.mk (type.data.takeWhile (fun c => c ≠ '(')))
              let type :=
                if ret_t ≠ "void" then
                  "auto " ++ String.mk (type.data.dropWhile (fun c => c ≠ '(')) ++ " -> " ++ ret_t
                else type
              let type := pyReplace type "NOEXCEPT17" "NOEXCEPT"
              .ok (render_doc_comment v.doc registry ++ "using " ++ nm ++ " = " ++ type ++ ";", [])
            else .error "ValueError: substring not found"
          else .error "ValueError: Could not identify name component of function pointer type"
      else .error "ValueError: funcpointer did not start with typedef"
  | .incl _ => .error "TypeError"

/-! ### `genheaders.render_set` (Set Renderer)

The generator function is embedded as a pure function from the set, the
registry, the output-file configuration and the current contents of the
`written` dict to the yielded lines, the console notices, the satellite
files written, and the updated `written` contents.  Only the
`FileToGenerate` fields the renderer reads are modelled
(`output_file`, `is_header`, `api`); `registry_file`,
`is_extension_only`, `include`, `exclude` and `preamble` are never read
by `render_set` (the annex recursion passes them positionally shifted,
but they stay unread). -/

/-- The `FileToGenerate` configuration, restricted to the fields
`render_set` reads. -/
structure FileToGenerate where
  output_file : String
  is_header : Bool
  api : List String

/-- The observable result of running `render_set` to completion:
the yielded lines, console prints, satellite files written (name and
content lines), and the resulting contents of `registry.written`. -/
structure RenderResult where
  lines : List String
  notices : List String
  satellites : List (String × List String)
  written : Dict String String

def Api.isCommand : Api → Bool
  | .command _ => true
  | _ => false

def Api.isIncl : Api → Bool
  | .incl _ => true
  | _ => false

/-- `api.namespace`, read only under guards that force `api` to be a
`Command`. -/
def Api.nspaceOf : Api → String
  | .command c => c.nspace
  | _ => ""

/-- The `passes` tuple of `render_set` (lines 642-646): feature sets
emit non-commands, then prototypes, then pointer typedefs; extension
sets emit non-commands, then pointer typedefs, then prototypes. -/
def passes (is_feature : Bool) : List String :=
  if is_feature then ["non-command", "command-function", "command-pfn"]
  else ["non-command", "command-pfn", "command-function"]

/-- One line of the per-declaration emission loop (lines 697-707): a
declaration already present in the `written` dict has its comment lines
(starting `/*` or ` *`) dropped, and every other line emitted wrapped in
`/*...*/` with a duplicate notice printed *per line*; an absent name is
emitted as-is.  Returns (yielded lines, printed notices). -/
def emitLine (written : Dict String String) (setName api_name line : String) :
    List String × List String :=
  match dictGet written api_name with
  | some already_set =>
    if pyStartsWith line "/*" || pyStartsWith line " *" then ([], [])
    else (["/*" ++ line ++ "*/"],
      [api_name ++ " is used in " ++ setName ++ " but was already written by " ++ already_set])
  | none => ([line], [])

/-- The whole per-declaration emission (lines 696-709): every rendered
line through `emitLine`, then a blank separator line exactly when the
rendered text spanned more than one line. -/
def emitApi (written : Dict String String) (setName api_name : String)
    (api_lines : List String) : List String × List String :=
  let per := api_lines.map (emitLine written setName api_name)
  (per.flatMap Prod.fst ++ (if api_lines.length > 1 then [""] else []),
   per.flatMap Prod.snd)

/-- The mutable locals of the pass/requirement/name loops of
`render_set`.  `apiLines` is the source's function-scoped `api_lines`,
read by the requirement-separator condition (guarded by
`writtenAny`). -/
structure EmitState where
  lines : List String := []
  notices : List String := []
  writtenPreamble : Bool := false
  lastNamespace : Option String := none
  writtenComment : Bool := false
  writtenAny : Bool := false
  apiLines : List String := []

/-- The body of the innermost loop of `render_set`
(`for api_name in requirement.apis`, lines 661-710). -/
def processName (set : ApiSet) (registry : Registry) (file : FileToGenerate)
    (written : Dict String String) (passName : String) (reqComment : Option String)
    (st : EmitState) (api_name : String) : Except String EmitState :=
  match dictGet registry.apis (.str api_name) with
  | none =>
    .ok { st with notices := st.notices
      ++ ["Skipping " ++ api_name ++ " for " ++ set.name ++ " as it doesn't exist"] }
  | some api =>
    if api.isIncl then .ok st
    else if pyStartsWith passName "command-" ≠ api.isCommand then .ok st
    else
      let st :=
        if st.lastNamespace.isSome ∧ passName = "command-function"
            ∧ st.lastNamespace ≠ some api.nspaceOf then
          { st with lines := st.lines ++ ["#endif"], writtenPreamble := false }
        else st
      let st :=
        if st.writtenPreamble then st
        else
          let st' :=
            if passName = "command-function" then
              if set.is_feature then
                { st with lines := st.lines ++ ["#ifndef " ++ api.nspaceOf ++ "_NO_PROTOTYPES"],
                          lastNamespace := some api.nspaceOf }
              else { st with lines := st.lines ++ ["#ifdef AL_ALEXT_PROTOTYPES"] }
            else if passName = "command-pfn" ∧ set.is_feature then
              { st with lines := st.lines
                ++ ["/* Pointer-to-function types, useful for storing dynamically loaded "
                      ++ api.nspaceOf ++ " entry",
                    " * points.",
                    " */"] }
            else st
          { st' with writtenPreamble := true }
      let should_write_comment := reqComment.isSome ∧ passName ≠ "command-pfn"
      let st :=
        if ¬ st.writtenComment ∧ should_write_comment then
          { st with lines := st.lines ++ ["/* " ++ pyFormatOpt reqComment ++ " */"],
                    writtenComment := true }
        else st
      match render_api api (passName = "command-pfn") registry file.is_header with
      | .error e => .error e
      | .ok (text, renderNotices) =>
        let api_lines := pySplitlines text
        let emitted := emitApi written set.name api_name api_lines
        .ok { st with lines := st.lines ++ emitted.1,
                      notices := st.notices ++ renderNotices ++ emitted.2,
                      writtenAny := true, apiLines := api_lines }

/-- The body of the requirement loop of `render_set` (lines 650-717):
skip requirements restricted to an API family the current output file
does not target, reset the per-requirement flags, process each name, and
append the between-requirements blank separator when this requirement
emitted and its last declaration's text was at most one line. -/
def processRequirement (set : ApiSet) (registry : Registry) (file : FileToGenerate)
    (written : Dict String String) (passName : String) (reqCount : Nat)
    (st : EmitState) (reqIdx : Nat) (req : Requirement) : Except String EmitState :=
  let skip : Bool := match req.api_specific with
    | some a => ! file.api.contains a
    | none => false
  if skip then .ok st
  else
    match (req.apis.foldlM
        (processName set registry file written passName req.comment)
        { st with writtenComment := false, writtenAny := false }) with
    | .error e => .error e
    | .ok st =>
      if st.writtenAny ∧ reqIdx ≠ reqCount - 1 ∧ st.apiLines.length ≤ 1 then
        .ok { st with lines := st.lines ++ [""] }
      else .ok st

/-- The three-pass emission of `render_set` (lines 642-724), returning
the yielded lines and the printed notices.  The `written` dict is not
modified during the passes (the write-back happens after them). -/
def renderPasses (set : ApiSet) (registry : Registry) (file : FileToGenerate)
    (written : Dict String String) : Except String (List String × List String) :=
  match ((passes set.is_feature).enum.foldlM
    (fun st pass_ => do
      let passIdx := pass_.1
      let passName := pass_.2
      let st := { st with writtenPreamble := false, lastNamespace := none }
      let st ← (set.require.enum.foldlM
        (fun st (r : Nat × Requirement) => processRequirement set registry file written
          passName set.require.length st r.1 r.2) st)
      if passName = "command-function" ∧ st.writtenPreamble then
        let closeLine :=
          if set.is_feature then
            "#endif /* " ++ pyFormatOpt st.lastNamespace ++ "_NO_PROTOTYPES */"
          else "#endif"
        let st := { st with lines := st.lines ++ [closeLine] }
        if passIdx ≠ 2 then pure { st with lines := st.lines ++ [""] } else pure st
      else pure st)
    ({} : EmitState)) with
  | .error e => .error e
  | .ok st => .ok (st.lines, st.notices)

/-- The lines yielded by `render_set` before the annex check
(lines 575-587): the module set marker, the include guard, and the
set's own documentation comment.  (For a single-line documentation list
the source yields both `/* ... */` and a stray ` */`, which is modelled
as-is; an empty documentation list raises `IndexError`.) -/
def setHeadLines (set : ApiSet) (file : FileToGenerate) (include_guard : Bool) :
    Except String (List String) :=
  let l1 := if ¬ file.is_header then ["/*** " ++ set.name ++ " ***/"] else []
  let l2 :=
    if include_guard ∧ file.is_header then
      ["#ifndef " ++ set.name, "#define " ++ set.name ++ " 1"]
    else []
  match set.doc with
  | none => .ok (l1 ++ l2)
  | some [] => .error "IndexError: list index out of range"
  | some (d0 :: drest) =>
    let dl := (if (d0 :: drest).length = 1 then ["/* " ++ pyStrip d0 ++ " */"]
               else ["/* " ++ pyStrip d0])
      ++ drest.map (fun l => " * " ++ pyStrip l) ++ [" */"]
    .ok (l1 ++ l2 ++ dl)

/-- The write-back loop at the end of `render_set` (lines 728-730):
record this set as the writer of *every* name in *every* requirement,
unconditionally. -/
def writeBack (set : ApiSet) (written : Dict String String) : Dict String String :=
  set.require.foldl (fun w req => req.apis.foldl (fun w a => dictSet w a set.name) w)
    written

/-- `render_set` without the annex-extraction branch: head lines, the
three passes, the guard close, the trailing blank line, and the
write-back.  This is exactly what `render_set` does whenever the annex
condition of line 591 is false. -/
def renderSetCore (set : ApiSet) (registry : Registry) (file : FileToGenerate)
    (include_guard : Bool) (written : Dict String String) :
    Except String RenderResult :=
  match setHeadLines set file include_guard with
  | .error e => .error e
  | .ok head =>
    match renderPasses set registry file written with
    | .error e => .error e
    | .ok (ls, ns) =>
      .ok { lines := head ++ ls
              ++ (if include_guard ∧ file.is_header then ["#endif"] else []) ++ [""],
            notices := ns,
            satellites := [],
            written := writeBack set written }

/-- `genheaders.render_set`.  When the set carries an annex, the current
output is a header, and its basename differs from `"<annex>.h"`, the
source recursively renders the set into a satellite header file (whose
basename *is* `"<annex>.h"`, so the recursive call provably takes the
non-annex path — it is therefore embedded as `renderSetCore`), consumes
that inner generator in full (running its write-back), writes the
satellite, and yields only an inclusion-reference line before returning
early, skipping its own write-back loop.  The satellite's content is
modelled as the inner render's lines; the `STANDARD_HEADER_TEMPLATE`
wrapping and the computed satellite preamble, which no claim inspects,
are not reproduced.  An annex name containing a path separator would
make the source recurse forever (the basename test never succeeds); that
divergence is modelled as an error. -/
def renderSet (set : ApiSet) (registry : Registry) (file : FileToGenerate)
    (include_guard : Bool) (written : Dict String String) :
    Except String RenderResult :=
  match set.annex with
  | some annex =>
    if file.is_header ∧ pyBasename file.output_file ≠ annex ++ ".h" then
      if pyBasename (annex ++ ".h") ≠ annex ++ ".h" then .error "RecursionError"
      else
        match setHeadLines set file include_guard with
        | .error e => .error e
        | .ok head =>
          match renderSetCore set registry
              { output_file := annex ++ ".h", is_header := true, api := file.api }
              false written with
          | .error e => .error e
          | .ok inner =>
            .ok { lines := head ++ ["#include \"" ++ annex ++ ".h" ++ "\""]
                    ++ (if include_guard ∧ file.is_header then ["#endif"] else []) ++ [""],
                  notices := inner.notices,
                  satellites := inner.satellites ++ [(annex ++ ".h", inner.lines)],
                  written := inner.written }
    else renderSetCore set registry file include_guard written
  | none => renderSetCore set registry file include_guard written

/-- Rendering a list of sets into one output file, threading the
`written` dict, as `create_header` does when it joins
`render_set(registry.sets[s], registry, header)` for each included set
(each generator is consumed to completion before the next starts). -/
def renderSets (sets : List ApiSet) (registry : Registry) (file : FileToGenerate)
    (written : Dict String String) :
    Except String (List RenderResult × Dict String String) :=
  sets.foldlM
    (fun acc s =>
      match renderSet s registry file true acc.2 with
      | .error e => .error e
      | .ok r => .ok (acc.1 ++ [r], r.written))
    ([], written)

/-! ### The class-level `written` dict (`reg.py` line 334, `genheaders.main`)

`Registry.written` is declared with an initializer at *class* scope
(`written: typing.Dict[str, str] = dict()`), and `Registry.__init__`
never assigns `self.written`, so the dict object is created once when
the class is defined and every instance's attribute lookup resolves to
that same object — until `genheaders.main` executes
`registries[...].written = dict()` for a `ResetRegistryState` entry,
which binds a *fresh* dict as an instance attribute of that one
registry.  The heap of dict objects is modelled explicitly: index `0`
is the class-level dict, and a registry either has no instance
attribute (`writtenAttr = none`, resolving to index 0) or points at a
later allocation. -/

/-- The live `written` dict objects; index 0 is the class-level dict. -/
structure WrittenHeap where
  dicts : List (Dict String String)

/-- The heap index the attribute lookup `registry.written` resolves to. -/
def writtenIndex (r : Registry) : Nat :=
  r.writtenAttr.getD 0

/-- The contents of the dict that `r.written` resolves to. -/
def WrittenHeap.viewWritten (h : WrittenHeap) (r : Registry) : Dict String String :=
  (h.dicts.get? (writtenIndex r)).getD []

/-- `r.written[k] = v`: mutate whichever dict the attribute resolves to. -/
def WrittenHeap.setWritten (h : WrittenHeap) (r : Registry) (k v : String) : WrittenHeap :=
  ⟨h.dicts.set (writtenIndex r) (dictSet (h.viewWritten r) k v)⟩

/-- `registries[...].written = dict()` from `genheaders.main`: allocate a
fresh empty dict and bind it as this registry's instance attribute. -/
def resetWritten (h : WrittenHeap) (r : Registry) : WrittenHeap × Registry :=
  (⟨h.dicts ++ [([] : Dict String String)]⟩, { r with writtenAttr := some h.dicts.length })

/-! ### Helper lemmas -/

theorem exceptBind_ok {ε α β : Type} {x : Except ε α} {f : α → Except ε β} {b : β}
    (h : x >>= f = .ok b) : ∃ a, x = .ok a ∧ f a = .ok b := by
  cases x with
  | ok a => exact ⟨a, rfl, h⟩
  | error e => simp [Bind.bind, Except.bind] at h

theorem dictGet_foldl_dictSet (L : List String) (v : String) :
    ∀ (w : Dict String String) (n : String),
    dictGet (L.foldl (fun w a => dictSet w a v) w) n =
      if n ∈ L then some v else dictGet w n := by
  induction L with
  | nil => intro w n; simp
  | cons a L ih =>
    intro w n
    simp only [List.foldl_cons, ih (dictSet w a v) n]
    by_cases hn : n ∈ L
    · simp [hn]
    · by_cases hna : n = a
      · subst hna; simp [hn, dictGet_dictSet_self]
      · simp [hn, hna, dictGet_dictSet_ne w a n v hna]

theorem dictGet_writeBack_fold (reqs : List Requirement) (v : String) :
    ∀ (w : Dict String String) (n : String),
    dictGet (reqs.foldl (fun w req => req.apis.foldl (fun w a => dictSet w a v) w) w) n =
      if n ∈ reqs.flatMap (fun r => r.apis) then some v else dictGet w n := by
  induction reqs with
  | nil => intro w n; simp
  | cons r rs ih =>
    intro w n
    simp only [List.foldl_cons, ih, List.flatMap_cons, List.mem_append]
    by_cases hn : n ∈ rs.flatMap (fun r => r.apis)
    · simp [hn]
    · simp [hn, dictGet_foldl_dictSet r.apis v w n]

theorem dictGet_writeBack (set : ApiSet) (w : Dict String String) (n : String) :
    dictGet (writeBack set w) n =
      if n ∈ set.require.flatMap (fun r => r.apis) then some set.name else dictGet w n :=
  dictGet_writeBack_fold set.require set.name w n

theorem renderSetCore_ok_written {set : ApiSet} {registry : Registry}
    {file : FileToGenerate} {g : Bool} {w : Dict String String} {r : RenderResult}
    (h : renderSetCore set registry file g w = .ok r) :
    r.written = writeBack set w := by
  unfold renderSetCore at h
  split at h
  · exact absurd h (by simp)
  · split at h
    · exact absurd h (by simp)
    · cases h; rfl

theorem renderSetCore_ok_satellites {set : ApiSet} {registry : Registry}
    {file : FileToGenerate} {g : Bool} {w : Dict String String} {r : RenderResult}
    (h : renderSetCore set registry file g w = .ok r) :
    r.satellites = [] := by
  unfold renderSetCore at h
  split at h
  · exact absurd h (by simp)
  · split at h
    · exact absurd h (by simp)
    · cases h; rfl

/-- Every `.ok` outcome of `render_set` carries the write-back of this
set over the incoming `written` dict: the non-annex path applies it
directly, and the annex path returns the inner (satellite) render's
dict, which the inner call — same set, same incoming dict — produced by
the same write-back loop. -/
theorem renderSet_ok_written {set : ApiSet} {registry : Registry}
    {file : FileToGenerate} {g : Bool} {w : Dict String String} {r : RenderResult}
    (h : renderSet set registry file g w = .ok r) :
    r.written = writeBack set w := by
  unfold renderSet at h
  split at h
  · split at h
    · split at h
      · exact absurd h (by simp)
      · split at h
        · exact absurd h (by simp)
        · split at h
          · exact absurd h (by simp)
          · rename_i inner hinner
            cases h
            simpa using renderSetCore_ok_written hinner
    · exact renderSetCore_ok_written h
  · exact renderSetCore_ok_written h

/-- The per-line emission over a declaration whose name is not yet in
the `written` dict is the identity. -/
theorem emitApi_of_absent (written : Dict String String) (setName api_name : String)
    (api_lines : List String) (h : dictGet written api_name = none) :
    emitApi written setName api_name api_lines =
      (api_lines ++ (if api_lines.length > 1 then [""] else []), []) := by
  have h1 : ∀ ls : List String,
      (ls.map (emitLine written setName api_name)).flatMap Prod.fst = ls := by
    intro ls
    induction ls with
    | nil => rfl
    | cons l ls ih => simp [emitLine, h, ih]
  have h2 : ∀ ls : List String,
      (ls.map (emitLine written setName api_name)).flatMap Prod.snd = [] := by
    intro ls
    induction ls with
    | nil => rfl
    | cons l ls ih => simp [emitLine, h, ih]
  simp [emitApi, h1, h2]

/-- The predicate selecting the lines the duplicate-suppression loop
keeps (everything that does not look like a comment line). -/
def keptLine (l : String) : Bool :=
  ! (pyStartsWith l "/*" || pyStartsWith l " *")

/-- The per-line emission over a declaration already recorded in the
`written` dict: comment-looking lines vanish, every other line is
emitted wrapped in `/*...*/`, and one duplicate notice is printed per
kept line. -/
theorem emitApi_of_written (written : Dict String String) (setName api_name : String)
    (api_lines : List String) (w : String) (h : dictGet written api_name = some w) :
    emitApi written setName api_name api_lines =
      ((api_lines.filter keptLine).map (fun l => "/*" ++ l ++ "*/")
         ++ (if api_lines.length > 1 then [""] else []),
       (api_lines.filter keptLine).map (fun _ =>
         api_name ++ " is used in " ++ setName ++ " but was already written by " ++ w)) := by
  have h1 : ∀ ls : List String,
      (ls.map (emitLine written setName api_name)).flatMap Prod.fst =
        (ls.filter keptLine).map (fun l => "/*" ++ l ++ "*/") := by
    intro ls
    induction ls with
    | nil => rfl
    | cons l ls ih =>
      by_cases hl : (pyStartsWith l "/*" || pyStartsWith l " *") = true
      · simp [emitLine, h, keptLine, hl, ih]
      · simp [emitLine, h, keptLine, hl, ih]
  have h2 : ∀ ls : List String,
      (ls.map (emitLine written setName api_name)).flatMap Prod.snd =
        (ls.filter keptLine).map (fun _ =>
          api_name ++ " is used in " ++ setName ++ " but was already written by " ++ w) := by
    intro ls
    induction ls with
    | nil => rfl
    | cons l ls ih =>
      by_cases hl : (pyStartsWith l "/*" || pyStartsWith l " *") = true
      · simp [emitLine, h, keptLine, hl, ih]
      · simp [emitLine, h, keptLine, hl, ih]
  simp [emitApi, h1, h2]

/-- A successful parse never sets the `written` instance attribute
(`Registry.__init__` does not mention `self.written`). -/
theorem parseRegistry_writtenAttr {root : Element} {reg : Registry} {ns : List String}
    (h : parseRegistry root = .ok (reg, ns)) : reg.writtenAttr = none := by
  unfold parseRegistry at h
  obtain ⟨g, -, h⟩ := exceptBind_ok h
  obtain ⟨an, -, h⟩ := exceptBind_ok h
  obtain ⟨an2, -, h⟩ := exceptBind_ok h
  obtain ⟨apis, -, h⟩ := exceptBind_ok h
  obtain ⟨sets, -, h⟩ := exceptBind_ok h
  cases an with
  | mk a n =>
    cases an2 with
    | mk a2 n2 =>
      simp only [Pure.pure, Except.ok.injEq] at h
      cases h
      rfl

mutual
theorem elemBeq_refl : ∀ e : Element, elemBeq e e = true
  | .mk t a x c l => by simp [elemBeq, elemBeqList_refl c]

theorem elemBeqList_refl : ∀ cs : List Element, elemBeqList cs cs = true
  | [] => rfl
  | c :: cs => by simp [elemBeqList, elemBeq_refl c, elemBeqList_refl cs]
end

theorem pyKeyBeq_refl (k : PyKey) : (k == k) = true := by
  cases k with
  | str s => exact beq_self_eq_true s
  | elemK e => exact elemBeq_refl e

/-- On the declaration table, the latest binding for a key — whether a
string key or an element key — is the one a lookup finds (Python dict
assignment semantics). -/
theorem dictGet_dictSet_pykey {β : Type} (d : Dict PyKey β) (k : PyKey) (v : β) :
    dictGet (dictSet d k v) k = some v := by
  simp [dictGet, dictSet, List.find?, pyKeyBeq_refl k]

/-- The types loop of `Registry.__init__` never reads the declaration
table it writes: for a fixed `<type>` element, processing either raises,
skips with a notice determined by the element alone, or extends *any*
prior table by one or two plain dict assignments — identically for every
prior table.  A name already bound in the table therefore cannot change
the outcome, trigger a warning, or cause an error. -/
theorem procType_apis_independent (notices : List String) (ty : Element) :
    (∃ err, ∀ apis, procType apis notices ty = .error err)
    ∨ (∃ note, ∀ apis, procType apis notices ty = .ok (apis, notices ++ [note]))
    ∨ (∃ k v, ∀ apis, procType apis notices ty = .ok (dictSet apis k v, notices))
    ∨ (∃ k1 v1 k2 v2, ∀ apis,
        procType apis notices ty = .ok (dictSet (dictSet apis k1 v1) k2 v2, notices)) := by
  rcases hnv : (match ty.attr "name" with
    | some s => if s = "" then (ty.findChild "name").map StrOrElem.elem
                else some (StrOrElem.str s)
    | none => (ty.findChild "name").map StrOrElem.elem) with _ | name
  · exact Or.inr (Or.inl ⟨"Skipping: " ++ elemRepr ty, fun apis => by
      simp [procType, hnv, Pure.pure, Except.pure]⟩)
  · by_cases hinc : ty.attr "category" = some "include"
    · exact Or.inr (Or.inr (Or.inl ⟨keyOf name, .incl ⟨name⟩, fun apis => by
        simp [procType, hnv, hinc, Pure.pure, Except.pure]⟩))
    · rcases hdoc : doc_from_element ty with err | doc
      · exact Or.inl ⟨err, fun apis => by
          simp [procType, hnv, hinc, hdoc, Bind.bind, Except.bind]⟩
      · cases name with
        | str s =>
          exact Or.inl ⟨"AttributeError: str object has no attribute text", fun apis => by
            simp [procType, hnv, hinc, hdoc, Bind.bind, Except.bind]⟩
        | elem e =>
          rcases htext : e.text with _ | t
          · exact Or.inl ⟨"AttributeError: NoneType has no attribute strip", fun apis => by
              simp [procType, hnv, hinc, hdoc, htext, Bind.bind, Except.bind]⟩
          · by_cases hbt : ty.attr "category" = some "basetype"
            · refine Or.inr (Or.inr (Or.inr ⟨.elemK e,
                .typedef
                  { type :=
                      (if pyStartsWith (pyStrip (innertextNoName ty)) "typedef" then
                        pyStrip (pyDrop (pyStrip (innertextNoName ty)) 7)
                      else pyStrip (innertextNoName ty)),
                    name := .elem e, repr := innertextAll ty, doc := doc,
                    deprecated := ty.attr "deprecated" },
                .str (pyStrip t),
                .verbatim
                  { name := .elem e, category := some "basetype",
                    repr := pyStrip (innertextAll ty), doc := doc,
                    deprecated := ty.attr "deprecated" },
                fun apis => ?_⟩))
              simp [procType, hnv, hinc, hdoc, htext, hbt, keyOf, Bind.bind, Except.bind,
                Pure.pure, Except.pure]
            · refine Or.inr (Or.inr (Or.inl ⟨.str (pyStrip t),
                .verbatim
                  { name := .elem e, category := ty.attr "category",
                    repr := pyStrip (innertextAll ty), doc := doc,
                    deprecated := ty.attr "deprecated" },
                fun apis => ?_⟩))
              simp [procType, hnv, hinc, hdoc, htext, hbt, keyOf, Bind.bind, Except.bind,
                Pure.pure, Except.pure]

/-- The commands loop of `Registry.__init__` never reads the declaration
table: a fixed `<command>` either raises, skips with a fixed notice, or
extends any prior table by one dict assignment. -/
theorem procCommand_apis_independent (nspace : String) (notices : List String)
    (command : Element) :
    (∃ err, ∀ apis, procCommand nspace apis notices command = .error err)
    ∨ (∃ note, ∀ apis,
        procCommand nspace apis notices command = .ok (apis, notices ++ [note]))
    ∨ (∃ k v, ∀ apis,
        procCommand nspace apis notices command = .ok (dictSet apis k v, notices)) := by
  rcases hproto : command.findChild "proto" with _ | proto
  · exact Or.inl ⟨"AttributeError: NoneType object has no attribute find", fun apis => by
      simp [procCommand, hproto]⟩
  · rcases hname : proto.findChild "name" with _ | nameEl
    · exact Or.inr (Or.inl ⟨"Skipping: " ++ elemRepr command, fun apis => by
        simp [procCommand, hproto, hname, Pure.pure, Except.pure]⟩)
    · rcases htext : nameEl.text with _ | nt
      · exact Or.inl ⟨"AttributeError: NoneType has no attribute strip", fun apis => by
          simp [procCommand, hproto, hname, htext]⟩
      · rcases hps : ((command.findChildren "param").mapM (fun p =>
            match p.findChild "name" with
            | none => Except.error "AttributeError: NoneType object has no attribute text"
            | some pn =>
              Except.ok ({ type := innertextNoName p, name := pn.text,
                           repr := innertextAll p } : Parameter))) with err | ps
        · exact Or.inl ⟨err, fun apis => by
            simp only [procCommand, hproto, hname, htext, Bind.bind, Except.bind]
            rw [hps]⟩
        · rcases hdoc : doc_from_element command with err | doc
          · exact Or.inl ⟨err, fun apis => by
              simp only [procCommand, hproto, hname, htext, Bind.bind, Except.bind]
              rw [hps, hdoc]⟩
          · refine Or.inr (Or.inr ⟨.str (pyStrip nt),
              .command { name := pyStrip nt, nspace := nspace,
                         return_type := return_type proto, parameters := ps,
                         pfn_name := (command.attr "funcpointer").getD
                           ("LP" ++ pyUpper (pyStrip nt)),
                         export_ := command.attr "export", doc := doc,
                         deprecated := command.attr "deprecated" },
              fun apis => ?_⟩)
            simp only [procCommand, hproto, hname, htext, Bind.bind, Except.bind]
            rw [hps, hdoc]
            rfl

/-- The enum loop of `Registry.__init__` never reads the declaration
table: a fixed `<enum>` either raises, is skipped silently, or extends
any prior table by one dict assignment.  No branch prints anything. -/
theorem procEnum_apis_independent (enum : Element) :
    (∃ err, ∀ apis, procEnum apis enum = .error err)
    ∨ (∀ apis, procEnum apis enum = .ok apis)
    ∨ (∃ k v, ∀ apis, procEnum apis enum = .ok (dictSet apis k v)) := by
  rcases hn : enum.attr "name" with _ | name
  · exact Or.inr (Or.inl (fun apis => by simp [procEnum, hn, Pure.pure, Except.pure]))
  · rcases hv : enum.attr "value" with _ | value
    · exact Or.inr (Or.inl (fun apis => by simp [procEnum, hn, hv, Pure.pure, Except.pure]))
    · rcases hp : enum.findChild "property" with _ | p
      · rcases hdoc : doc_from_element enum with err | doc
        · exact Or.inl ⟨err, fun apis => by
            simp [procEnum, hn, hv, hp, hdoc, Bind.bind, Except.bind]⟩
        · refine Or.inr (Or.inr ⟨.str (pyStrip name),
            .enum { name := name, value := pyStrip value, property := none,
                    groups := (enum.attr "group").map (fun g => (pySplit g ",").map pyStrip),
                    doc := doc, deprecated := enum.attr "deprecated" },
            fun apis => ?_⟩)
          simp [procEnum, hn, hv, hp, hdoc, Bind.bind, Except.bind, Pure.pure, Except.pure]
      · rcases hon : p.attr "on" with _ | onv
        · exact Or.inl ⟨"KeyError: on", fun apis => by
            simp [procEnum, hn, hv, hp, hon, Bind.bind, Except.bind]⟩
        · rcases hdoc : doc_from_element enum with err | doc
          · exact Or.inl ⟨err, fun apis => by
              simp [procEnum, hn, hv, hp, hon, hdoc, Bind.bind, Except.bind]⟩
          · refine Or.inr (Or.inr ⟨.str (pyStrip name),
              .enum { name := name, value := pyStrip value,
                      property := some
                        ({ on_ := onv, type := p.attr "type",
                           range := pyOrStr (p.attr "group") (p.attr "range"),
                           default := p.attr "default",
                           value_class := p.attr "class" } : Property),
                      groups := (enum.attr "group").map (fun g => (pySplit g ",").map pyStrip),
                      doc := doc, deprecated := enum.attr "deprecated" },
              fun apis => ?_⟩)
            simp [procEnum, hn, hv, hp, hon, hdoc, Bind.bind, Except.bind, Pure.pure,
              Except.pure]

/-! ### Claim C1 -/

/-- C1: during Set Renderer emission (the per-declaration loop of
`render_set`, embedded as `emitApi`, which `processName` applies to
every declaration about to be emitted), a declaration whose name is
recorded in the already-written dict with a different set as writer has
each non-comment line of its rendered text emitted wrapped as a comment
while lines beginning with `/*` or ` *` are dropped entirely; a name
absent from the dict has its rendered text emitted live, followed by a
blank separator line exactly when the rendered text spanned more than
one line. -/
theorem c1_duplicate_suppression_and_live_emission
    (written : Dict String String) (setName api_name : String)
    (api_lines : List String) :
    (∀ w, dictGet written api_name = some w → w ≠ setName →
      emitApi written setName api_name api_lines =
        ((api_lines.filter keptLine).map (fun l => "/*" ++ l ++ "*/")
           ++ (if api_lines.length > 1 then [""] else []),
         (api_lines.filter keptLine).map (fun _ =>
           api_name ++ " is used in " ++ setName ++ " but was already written by " ++ w)))
    ∧ (dictGet written api_name = none →
      emitApi written setName api_name api_lines =
        (api_lines ++ (if api_lines.length > 1 then [""] else []), [])) :=
  ⟨fun w h _ => emitApi_of_written written setName api_name api_lines w h,
   fun h => emitApi_of_absent written setName api_name api_lines h⟩

/-- Witness for C1 at a concrete input: a two-line rendered text whose
doc line is dropped and whose code line is wrapped, and a one-line text
emitted live with no separator. -/
theorem c1_witness :
    emitApi [("AL_X", "S1")] "S2" "AL_X" ["/** d */", "alpha"] =
      (["/*alpha*/", ""], ["AL_X is used in S2 but was already written by S1"])
    ∧ emitApi [] "S2" "AL_X" ["beta"] = (["beta"], []) := by
  constructor
  · have h := (c1_duplicate_suppression_and_live_emission
      [("AL_X", "S1")] "S2" "AL_X" ["/** d */", "alpha"]).1 "S1" (by rfl) (by decide)
    rw [h]; rfl
  · have h := (c1_duplicate_suppression_and_live_emission
      [] "S2" "AL_X" ["beta"]).2 (by rfl)
    rw [h]; rfl

/-! ### Claim C3 -/

/-- The set `{E1 (enum), C1 (command)}` of the spec's pass-order
example, as a feature. -/
def c3FeatureSet : ApiSet :=
  { is_feature := true, name := "AL_TEST", api := ["al"],
    require := [{ apis := ["E1", "C1"] }] }

/-- The same members as an extension. -/
def c3ExtensionSet : ApiSet :=
  { is_feature := false, name := "AL_EXT_test", api := ["al"],
    require := [{ apis := ["E1", "C1"] }] }

/-- A registry holding the example enum `E1` and command `C1`. -/
def c3Registry : Registry :=
  { apis := [(.str "E1", .enum { name := "E1", value := "0x1", property := none }),
             (.str "C1", .command { name := "C1", nspace := "AL", return_type := "void",
                                    parameters := [], pfn_name := "LPC1" })],
    sets := [], groups := [] }

/-- A plain header output file targeting the `al` family. -/
def c3HeaderFile : FileToGenerate :=
  { output_file := "al.h", is_header := true, api := ["al"] }

/-- C3: pass order is `non-command`, prototypes, pointer typedefs for a
feature and `non-command`, pointer typedefs, prototypes for an
extension; concretely, a feature requiring `{E1, C1}` emits `E1`'s text,
then `C1`'s prototype, then `C1`'s pointer typedef, while an extension
with the same members emits `E1`, then `C1`'s pointer form, then `C1`'s
prototype. -/
theorem c3_pass_order_feature_vs_extension :
    passes true = ["non-command", "command-function", "command-pfn"]
    ∧ passes false = ["non-command", "command-pfn", "command-function"]
    ∧ renderSet c3FeatureSet c3Registry c3HeaderFile true [] = .ok
      { lines := ["#ifndef AL_TEST", "#define AL_TEST 1",
                  "#define E1                                       0x1",
                  "#ifndef AL_NO_PROTOTYPES",
                  "void AL_APIENTRY C1(void) AL_API_NOEXCEPT;",
                  "#endif /* AL_NO_PROTOTYPES */", "",
                  "/* Pointer-to-function types, useful for storing dynamically loaded AL entry",
                  " * points.", " */",
                  "typedef void (AL_APIENTRY *LPC1)(void) AL_API_NOEXCEPT17;",
                  "#endif", ""],
        notices := [], satellites := [],
        written := [("C1", "AL_TEST"), ("E1", "AL_TEST")] }
    ∧ renderSet c3ExtensionSet c3Registry c3HeaderFile true [] = .ok
      { lines := ["#ifndef AL_EXT_test", "#define AL_EXT_test 1",
                  "#define E1                                       0x1",
                  "typedef void (AL_APIENTRY *LPC1)(void) AL_API_NOEXCEPT17;",
                  "#ifdef AL_ALEXT_PROTOTYPES",
                  "void AL_APIENTRY C1(void) AL_API_NOEXCEPT;",
                  "#endif", "#endif", ""],
        notices := [], satellites := [],
        written := [("C1", "AL_EXT_test"), ("E1", "AL_EXT_test")] } :=
  ⟨rfl, rfl, rfl, rfl⟩

/-! ### Claim C5 -/

/-- C5: whenever `render_set` runs to completion (including through the
annex-extraction path, whose inner satellite render performs the same
write-back before the outer early return), every name of every
Requirement of the set is recorded in the already-written dict with this
set as its writer — regardless of whether the name was skipped,
unresolvable, an Include marker, restricted to another API family, or
already written by another set, since the write-back loop is
unconditional. -/
theorem c5_writeback_records_all_names (set : ApiSet) (registry : Registry)
    (file : FileToGenerate) (include_guard : Bool) (written : Dict String String)
    (r : RenderResult) (h : renderSet set registry file include_guard written = .ok r)
    (n : String) (hn : n ∈ set.require.flatMap (fun req => req.apis)) :
    dictGet r.written n = some set.name := by
  rw [renderSet_ok_written h, dictGet_writeBack]
  simp [hn]

/-- A set whose single referenced name does not resolve in the registry
(it is skipped with a notice on every pass, yet still written back). -/
def c5DemoSet : ApiSet :=
  { is_feature := true, name := "S", api := ["al"], require := [{ apis := ["N1"] }] }

def c5DemoRegistry : Registry := { apis := [], sets := [], groups := [] }

def c5DemoFile : FileToGenerate :=
  { output_file := "x.cppm", is_header := false, api := ["al"] }

def c5DemoResult : RenderResult :=
  { lines := ["/*** S ***/", ""],
    notices := ["Skipping N1 for S as it doesn't exist",
                "Skipping N1 for S as it doesn't exist",
                "Skipping N1 for S as it doesn't exist"],
    satellites := [], written := [("N1", "S")] }

/-- Witness for C5: a name that was never emitted (it does not resolve)
is still recorded with the rendering set as its writer. -/
theorem c5_witness :
    renderSet c5DemoSet c5DemoRegistry c5DemoFile true [] = .ok c5DemoResult
    ∧ dictGet c5DemoResult.written "N1" = some "S" := by
  have h : renderSet c5DemoSet c5DemoRegistry c5DemoFile true [] = .ok c5DemoResult := by rfl
  exact ⟨h, c5_writeback_records_all_names c5DemoSet c5DemoRegistry c5DemoFile true []
    c5DemoResult h "N1" (by decide)⟩

/-! ### Claim C10 -/

/-- C10: annex satellite extraction happens only for header outputs.
For a module (non-header) output file, `render_set` on a set carrying an
annex name behaves exactly like the non-annex path (`renderSetCore`,
i.e. the normal three passes rendered inline), equals the render of the
same set with its annex erased, and writes no satellite file (hence
emits no inclusion-reference line, which only the annex branch
yields). -/
theorem c10_module_output_ignores_annex (set : ApiSet) (registry : Registry)
    (file : FileToGenerate) (include_guard : Bool) (written : Dict String String)
    (h : file.is_header = false) :
    renderSet set registry file include_guard written
      = renderSetCore set registry file include_guard written
    ∧ renderSet set registry file include_guard written
      = renderSet { set with annex := none } registry file include_guard written
    ∧ (∀ r, renderSet set registry file include_guard written = .ok r →
        r.satellites = []) := by
  obtain ⟨f, nm, ap, req, ann, doc⟩ := set
  have hcore : renderSet ⟨f, nm, ap, req, ann, doc⟩ registry file include_guard written
      = renderSetCore ⟨f, nm, ap, req, ann, doc⟩ registry file include_guard written := by
    cases ann with
    | none => rfl
    | some a => simp [renderSet, h]
  refine ⟨hcore, ?_, ?_⟩
  · rw [hcore]
    show renderSetCore ⟨f, nm, ap, req, ann, doc⟩ registry file include_guard written
      = renderSet ⟨f, nm, ap, req, none, doc⟩ registry file include_guard written
    rfl
  · intro r hr
    rw [hcore] at hr
    exact renderSetCore_ok_satellites hr

/-- The EFX-style annexed set of the C10 witness. -/
def c10Set : ApiSet :=
  { is_feature := false, name := "ALC_EXT_EFX", api := ["al", "alc"],
    require := [{ apis := ["E9"] }], annex := some "efx" }

def c10Registry : Registry :=
  { apis := [(.str "E9", .enum { name := "E9", value := "0x20", property := none })],
    sets := [], groups := [] }

/-- A module (non-header) output file. -/
def c10File : FileToGenerate :=
  { output_file := "efx.cppm", is_header := false, api := ["al", "alc"] }

def c10Result : RenderResult :=
  { lines := ["/*** ALC_EXT_EFX ***/",
              "ENUMDCL E9 =                                     0x20;", ""],
    notices := [], satellites := [], written := [("E9", "ALC_EXT_EFX")] }

/-- Witness for C10: rendering the annexed EFX-style set into a module
file takes the inline path and produces no satellite. -/
theorem c10_witness :
    renderSet c10Set c10Registry c10File true []
      = renderSetCore c10Set c10Registry c10File true []
    ∧ c10Result.satellites = [] := by
  refine ⟨(c10_module_output_ignores_annex c10Set c10Registry c10File true [] rfl).1, ?_⟩
  exact (c10_module_output_ignores_annex c10Set c10Registry c10File true [] rfl).2.2
    c10Result (by rfl)

/-! ### Claim C2 -/

/-- A declaration whose rendered (header) text spans two non-comment
lines. -/
def c2Verbatim : Api :=
  .verbatim { name := .str "VB", category := some "define", repr := "line1\nline2" }

def c2Registry : Registry :=
  { apis := [(.str "VB", c2Verbatim)], sets := [], groups := [] }

def c2Set1 : ApiSet :=
  { is_feature := true, name := "S1", api := ["al"], require := [{ apis := ["VB"] }] }

def c2Set2 : ApiSet :=
  { is_feature := true, name := "S2", api := ["al"], require := [{ apis := ["VB"] }] }

def c2File : FileToGenerate :=
  { output_file := "al.h", is_header := true, api := ["al"] }

def c2Result1 : RenderResult :=
  { lines := ["#ifndef S1", "#define S1 1", "line1", "line2", "", "#endif", ""],
    notices := [], satellites := [], written := [("VB", "S1")] }

def c2Result2 : RenderResult :=
  { lines := ["#ifndef S2", "#define S2 1", "/*line1*/", "/*line2*/", "", "#endif", ""],
    notices := ["VB is used in S2 but was already written by S1",
                "VB is used in S2 but was already written by S1"],
    satellites := [], written := [("VB", "S2"), ("VB", "S1")] }

/-- Counterexample to C2 as stated: `VB` is referenced by the two sets
`S1` and `S2` rendered in one generation group; `S1` emits it live and
`S2` only in suppressed form, but the duplicate console notice is
printed *twice* for the single extra reference — the print statement
sits inside the per-line loop, so a two-line rendered text produces two
notices, refuting "exactly one duplicate notice per extra reference
(regardless of how many lines the declaration's rendered text
spans)". -/
theorem c2_counterexample :
    renderSets [c2Set1, c2Set2] c2Registry c2File [] =
      .ok ([c2Result1, c2Result2], [("VB", "S2"), ("VB", "S1")])
    ∧ c2Result2.notices =
      ["VB is used in S2 but was already written by S1",
       "VB is used in S2 but was already written by S1"]
    ∧ c2Result2.notices.length ≠ 1 :=
  ⟨rfl, rfl, by decide⟩

/-- C2 (amended): for a declaration referenced by two or more sets in
one generation group, a set that finds the name unrecorded emits the
rendered text live with no duplicate notice; a set that finds it
recorded emits only the comment-wrapped form (non-comment lines
wrapped, comment lines dropped) and prints one duplicate notice *per
non-comment line* of the rendered text — exactly one per extra
reference only when that text has exactly one non-comment line; and
every completed render records all its referenced names, so all sets
after the first emit the declaration only in suppressed form. -/
theorem c2_amended_one_live_emission (registry : Registry) (file : FileToGenerate)
    (set : ApiSet) (written : Dict String String) (setName api_name : String)
    (api_lines : List String) :
    (dictGet written api_name = none →
      emitApi written setName api_name api_lines =
        (api_lines ++ (if api_lines.length > 1 then [""] else []), []))
    ∧ (∀ w, dictGet written api_name = some w →
        (emitApi written setName api_name api_lines).1 =
          (api_lines.filter keptLine).map (fun l => "/*" ++ l ++ "*/")
            ++ (if api_lines.length > 1 then [""] else [])
        ∧ (emitApi written setName api_name api_lines).2.length =
            (api_lines.filter keptLine).length)
    ∧ (∀ g r, renderSet set registry file g written = .ok r →
        ∀ n, n ∈ set.require.flatMap (fun req => req.apis) →
          dictGet r.written n = some set.name) := by
  refine ⟨fun h => emitApi_of_absent written setName api_name api_lines h,
          fun w h => ?_, fun g r hr n hn => ?_⟩
  · rw [emitApi_of_written written setName api_name api_lines w h]
    exact ⟨rfl, by simp⟩
  · rw [renderSet_ok_written hr, dictGet_writeBack]
    simp [hn]

/-- Witness for C2 (amended) at the counterexample's inputs: the first
set emits `VB` live with no notice, the second set's emission is fully
suppressed with one notice per non-comment line (two), and the second
set's completed render records itself as `VB`'s writer. -/
theorem c2_witness :
    emitApi [] "S1" "VB" ["line1", "line2"] = (["line1", "line2", ""], [])
    ∧ (emitApi [("VB", "S1")] "S2" "VB" ["line1", "line2"]).2.length = 2
    ∧ dictGet c2Result2.written "VB" = some "S2" := by
  refine ⟨?_, ?_, ?_⟩
  · have h := (c2_amended_one_live_emission c2Registry c2File c2Set1 [] "S1" "VB"
      ["line1", "line2"]).1 (by rfl)
    rw [h]; rfl
  · have h := ((c2_amended_one_live_emission c2Registry c2File c2Set2 [("VB", "S1")]
      "S2" "VB" ["line1", "line2"]).2.1 "S1" (by rfl)).2
    rw [h]; rfl
  · exact (c2_amended_one_live_emission c2Registry c2File c2Set2 [("VB", "S1")]
      "S2" "VB" ["line1", "line2"]).2.2 true c2Result2 (by rfl) "VB" (by decide)

/-! ### Claim C4 -/

/-- The nested name element of a typical basetype declaration
(`<type category="basetype">typedef char <name>ALboolean</name>;</type>`). -/
def c4NameEl : Element := .mk "name" [] (some "ALboolean") [] (some ";")

def c4TypeEl : Element :=
  .mk "type" [("category", "basetype")] (some "typedef char ") [c4NameEl] none

def c4Root : Element :=
  .mk "registry" [] none [.mk "types" [] none [c4TypeEl] none] none

def c4Verbatim : Verbatim :=
  { name := .elem c4NameEl, category := some "basetype",
    repr := "typedef char ALboolean;", doc := none, deprecated := none }

def c4Typedef : Typedef :=
  { type := "char", name := .elem c4NameEl, repr := "typedef char ALboolean;",
    doc := none, deprecated := none }

def c4Registry : Registry :=
  { apis := [(.str "ALboolean", .verbatim c4Verbatim),
             (.elemK c4NameEl, .typedef c4Typedef)],
    sets := [], groups := [] }

/-- A `<type>` of non-include category whose name comes only from the
`name` *attribute* (`<type name="AL_CROSS" category="define">...`). -/
def c4AttrTypeEl : Element :=
  .mk "type" [("name", "AL_CROSS"), ("category", "define")]
    (some "#define AL_CROSS 1") [] none

def c4AttrRoot : Element :=
  .mk "registry" [] none [.mk "types" [] none [c4AttrTypeEl] none] none

/-- Counterexample to C4 as stated, refuting both halves.  First half:
parsing the basetype `ALboolean` leaves its *name* mapped to a
`Verbatim`, not a `TypeAlias` — the basetype branch of
`Registry.__init__` has no `continue`, so execution falls through to the
Verbatim store, which is keyed by the name string, while the `Typedef`
is keyed by the name *element object* and is unreachable by name.
Second half: for a non-include type element whose name comes from the
`name` attribute, the name maps to nothing at all — parsing raises
`AttributeError` (`name.text` on a `str`) and produces no registry. -/
theorem c4_counterexample :
    parseRegistry c4Root = .ok (c4Registry, [])
    ∧ dictGet c4Registry.apis (.str "ALboolean") = some (.verbatim c4Verbatim)
    ∧ (¬ ∃ t : Typedef,
        dictGet c4Registry.apis (.str "ALboolean") = some (.typedef t))
    ∧ parseRegistry c4AttrRoot =
        .error "AttributeError: str object has no attribute text" := by
  refine ⟨rfl, rfl, ?_, rfl⟩
  rintro ⟨t, ht⟩
  rw [show dictGet c4Registry.apis (.str "ALboolean")
      = some (.verbatim c4Verbatim) from rfl] at ht
  simp at ht

/-- C4 (amended): for every type element of non-include category whose
name resolves to a nested `name` sub-element with text (and whose
documentation extraction succeeds), parsing maps the name's text to a
`Verbatim` holding the full inner text; for category `basetype` a
`TypeAlias` (with the leading `typedef` keyword stripped from the
name-filtered inner text) is additionally built first, but it is stored
under the name *element object* — the missing `continue` lets the
Verbatim store run afterwards, so lookups by name always find the
`Verbatim`.  A non-include type element whose name comes (non-empty)
from the `name` attribute instead makes parsing raise `AttributeError`
(`name.text` on a `str`). -/
theorem c4_type_categories_amended (apis : Dict PyKey Api) (notices : List String)
    (ty : Element) (e : Element) (t : String) (doc : Option (List String))
    (hinc : ty.attr "category" ≠ some "include")
    (hattr : ty.attr "name" = none)
    (hfind : ty.findChild "name" = some e)
    (htext : e.text = some t)
    (hdoc : doc_from_element ty = .ok doc) :
    procType apis notices ty =
      .ok (dictSet
            (if ty.attr "category" = some "basetype" then
              dictSet apis (.elemK e)
                (.typedef
                  { type :=
                      (if pyStartsWith (pyStrip (innertextNoName ty)) "typedef" then
                        pyStrip (pyDrop (pyStrip (innertextNoName ty)) 7)
                      else pyStrip (innertextNoName ty)),
                    name := .elem e, repr := innertextAll ty, doc := doc,
                    deprecated := ty.attr "deprecated" })
            else apis)
            (.str (pyStrip t))
            (.verbatim
              { name := .elem e, category := ty.attr "category",
                repr := pyStrip (innertextAll ty), doc := doc,
                deprecated := ty.attr "deprecated" }),
          notices)
    ∧ (∀ (r : Dict PyKey Api) (n : List String),
        procType apis notices ty = .ok (r, n) →
        dictGet r (.str (pyStrip t)) =
          some (.verbatim
            { name := .elem e, category := ty.attr "category",
              repr := pyStrip (innertextAll ty), doc := doc,
              deprecated := ty.attr "deprecated" }))
    ∧ (∀ (apis2 : Dict PyKey Api) (n2 : List String) (ty2 : Element) (s : String)
          (d2 : Option (List String)),
        ty2.attr "name" = some s → s ≠ "" → ty2.attr "category" ≠ some "include" →
        doc_from_element ty2 = .ok d2 →
        procType apis2 n2 ty2 =
          .error "AttributeError: str object has no attribute text") := by
  have h1 : procType apis notices ty =
      .ok (dictSet
            (if ty.attr "category" = some "basetype" then
              dictSet apis (.elemK e)
                (.typedef
                  { type :=
                      (if pyStartsWith (pyStrip (innertextNoName ty)) "typedef" then
                        pyStrip (pyDrop (pyStrip (innertextNoName ty)) 7)
                      else pyStrip (innertextNoName ty)),
                    name := .elem e, repr := innertextAll ty, doc := doc,
                    deprecated := ty.attr "deprecated" })
            else apis)
            (.str (pyStrip t))
            (.verbatim
              { name := .elem e, category := ty.attr "category",
                repr := pyStrip (innertextAll ty), doc := doc,
                deprecated := ty.attr "deprecated" }),
          notices) := by
    simp [procType, hattr, hfind, htext, hdoc, hinc, keyOf, Bind.bind, Except.bind,
      Pure.pure, Except.pure]
  refine ⟨h1, ?_, ?_⟩
  · intro r n hr
    rw [h1] at hr
    simp only [Except.ok.injEq, Prod.mk.injEq] at hr
    rw [← hr.1]
    exact dictGet_dictSet_pykey _ _ _
  · intro apis2 n2 ty2 s d2 hs hne hinc2 hdoc2
    simp [procType, hs, hne, hinc2, hdoc2, Bind.bind, Except.bind]

/-- The name element and type element of a funcpointer-style (non-
basetype) declaration used by the C4 witness. -/
def c4FpNameEl : Element := .mk "name" [] (some "LPALFOO") [] (some ")(void);")

def c4FpTypeEl : Element :=
  .mk "type" [("category", "funcpointer")]
    (some "typedef void (AL_APIENTRY *") [c4FpNameEl] none

def c4FpVerbatim : Verbatim :=
  { name := .elem c4FpNameEl, category := some "funcpointer",
    repr := "typedef void (AL_APIENTRY *LPALFOO)(void);",
    doc := none, deprecated := none }

/-- Witness for C4 (amended) at three concrete elements: the basetype
`ALboolean` (Typedef shadowed by the Verbatim), a funcpointer type whose
name maps to a Verbatim, and an attribute-named `define` type on which
parsing raises. -/
theorem c4_witness :
    procType [] [] c4TypeEl =
      .ok ([(.str "ALboolean", .verbatim c4Verbatim),
            (.elemK c4NameEl, .typedef c4Typedef)], [])
    ∧ dictGet [((PyKey.str "LPALFOO"), (Api.verbatim c4FpVerbatim))]
        (.str "LPALFOO") = some (.verbatim c4FpVerbatim)
    ∧ procType [] [] c4AttrTypeEl =
        .error "AttributeError: str object has no attribute text" := by
  have hbt := c4_type_categories_amended [] [] c4TypeEl c4NameEl "ALboolean" none
    (by decide) rfl rfl rfl rfl
  have hfp := c4_type_categories_amended [] [] c4FpTypeEl c4FpNameEl "LPALFOO" none
    (by decide) rfl rfl rfl rfl
  refine ⟨hbt.1.trans (by rfl), ?_, ?_⟩
  · exact hfp.2.1 [((PyKey.str "LPALFOO"), (Api.verbatim c4FpVerbatim))] [] (by rfl)
  · exact hbt.2.2 [] [] c4AttrTypeEl "AL_CROSS" none rfl (by decide) (by decide) rfl

/-! ### Claim C6 -/

/-- A registry document whose single `<command>` has no `<proto>`
child. -/
def c6Root : Element :=
  .mk "registry" [] none
    [.mk "commands" [] none [.mk "command" [] none [] none] none] none

/-- C6 is contradicted by the code: parsing is *not* total.  A
`<command>` element lacking a `<proto>` sub-element makes
`Registry.__init__` evaluate `proto.find("name")` with `proto = None`,
raising `AttributeError` before the `name is None` skip check is ever
reached — the element is not skipped with a notice, and no `Registry` is
produced.  (The spec's stated intent, "missing required sub-elements
cause that element to be skipped with a printed notice, never a hard
failure", matches the guarded name checks elsewhere in the same loop, so
this is a slip in the code rather than in the claim.) -/
theorem c6_missing_proto_raises :
    parseRegistry c6Root =
      .error "AttributeError: NoneType object has no attribute find" := by
  rfl

/-! ### Claim C7 -/

def c7EnumA : Element := .mk "enum" [("name", "AL_X"), ("value", "1")] none [] none

def c7EnumB : Element := .mk "enum" [("name", "AL_X"), ("value", "2")] none [] none

def c7Root : Element :=
  .mk "registry" [] none [.mk "enums" [] none [c7EnumA, c7EnumB] none] none

def c7Registry : Registry :=
  { apis := [(.str "AL_X", .enum { name := "AL_X", value := "2", property := none }),
             (.str "AL_X", .enum { name := "AL_X", value := "1", property := none })],
    sets := [], groups := [] }

/-- Counterexample to C7 as stated: parsing two `<enum>` declarations
that share the name `AL_X` does overwrite the earlier entry with the
later one, but the parse's console output (the second component of the
result) is *empty* — no warning is printed anywhere in
`Registry.__init__` for a duplicate name, refuting "and a warning is
printed". -/
theorem c7_counterexample :
    parseRegistry c7Root = .ok (c7Registry, [])
    ∧ dictGet c7Registry.apis (.str "AL_X") =
        some (.enum { name := "AL_X", value := "2", property := none }) :=
  ⟨rfl, rfl⟩

/-- C7 (amended): within one registry, a later parse of a declaration
name — of any kind the declaration table holds: type, command, or
enum — silently overwrites an earlier entry and a duplicate never
causes an error.  Every path of the three table-writing loops of
`Registry.__init__` either raises, skips (with a console notice fixed by
the element alone, never a duplicate warning — the enum loop prints
nothing at all), or extends the prior table by plain dict assignments,
with an outcome *independent of the prior table*: no loop ever looks a
name up before storing, so an already-bound name cannot change the
result, produce a warning, or raise; and on the resulting table the
latest binding for a key is the one a lookup finds. -/
theorem c7_silent_overwrite_amended :
    (∀ (notices : List String) (ty : Element),
      (∃ err, ∀ apis, procType apis notices ty = .error err)
      ∨ (∃ note, ∀ apis, procType apis notices ty = .ok (apis, notices ++ [note]))
      ∨ (∃ k v, ∀ apis, procType apis notices ty = .ok (dictSet apis k v, notices))
      ∨ (∃ k1 v1 k2 v2, ∀ apis,
          procType apis notices ty = .ok (dictSet (dictSet apis k1 v1) k2 v2, notices)))
    ∧ (∀ (nspace : String) (notices : List String) (command : Element),
      (∃ err, ∀ apis, procCommand nspace apis notices command = .error err)
      ∨ (∃ note, ∀ apis,
          procCommand nspace apis notices command = .ok (apis, notices ++ [note]))
      ∨ (∃ k v, ∀ apis,
          procCommand nspace apis notices command = .ok (dictSet apis k v, notices)))
    ∧ (∀ (enum : Element),
      (∃ err, ∀ apis, procEnum apis enum = .error err)
      ∨ (∀ apis, procEnum apis enum = .ok apis)
      ∨ (∃ k v, ∀ apis, procEnum apis enum = .ok (dictSet apis k v)))
    ∧ (∀ (d : Dict PyKey Api) (k : PyKey) (v : Api),
        dictGet (dictSet d k v) k = some v) :=
  ⟨procType_apis_independent, procCommand_apis_independent,
   procEnum_apis_independent, fun d k v => dictGet_dictSet_pykey d k v⟩

/-- Witness for C7 (amended): on the concrete duplicate of the
counterexample, the later `AL_X` binding is the one found. -/
theorem c7_witness :
    dictGet
        (dictSet [((PyKey.str "AL_X"),
            (Api.enum { name := "AL_X", value := "1", property := none }))]
          (.str "AL_X") (.enum { name := "AL_X", value := "2", property := none }))
        (.str "AL_X") =
      some (.enum { name := "AL_X", value := "2", property := none }) :=
  c7_silent_overwrite_amended.2.2.2
    [((PyKey.str "AL_X"), (Api.enum { name := "AL_X", value := "1", property := none }))]
    (.str "AL_X") (.enum { name := "AL_X", value := "2", property := none })

/-! ### Claim C8 -/

def c8Registry : Registry := { apis := [], sets := [], groups := [] }

/-- Counterexample to C8 as stated: for the property range `"0..10"`
(which contains `..`), the single emitted Range line is
`"Range: [0 - <0]"` — the upper bound is rendered exclusively but its
first digit is *dropped* (`bounds[1][1:]` strips the first character
whether or not it is a marker), so the bound's digits `10` are not
preserved. -/
theorem c8_counterexample :
    render_range "0..10" 7 = ["Range: [0 - <0]"]
    ∧ render_doc_comment (some ["x"]) c8Registry
        (some { on_ := "source", type := none, range := some "0..10", default := none }) =
      "/**\n * x\n * Range: [0 - <0]\n */\n"
    ∧ pyContains "Range: [0 - <0]" "10" = false
    ∧ "Range: [0 - <0]" ≠ "Range: [0 - <10]" :=
  ⟨rfl, rfl, rfl, by decide⟩

/-- C8 (amended): for a range string containing `..`, exactly one Range
line is emitted, rendering `[lower - upper]` where `upper` is empty when
at most one split segment is non-blank, and otherwise is the segment
after the first `..` with its *first character removed* — inclusive
(no prefix) when that segment contains `=`, exclusive (prefixed `<`)
otherwise; the upper bound's digits survive only when the segment starts
with a one-character marker. -/
theorem c8_range_amended (range_str : String) (cols : Nat) (b0 b1 : String)
    (rest : List String) (hsplit : pySplit range_str ".." = b0 :: b1 :: rest) :
    render_range range_str cols =
      [pyLjust "Range: " cols ++ "[" ++ b0 ++ " - " ++
        (if ((b0 :: b1 :: rest).filter (fun x => pyStrip x ≠ "")).length > 1 then
          (if pyHasChar b1 '=' then pyDrop b1 1 else "<" ++ pyDrop b1 1)
        else "") ++ "]"] := by
  unfold render_range
  rw [show pyContains range_str ".." = true from by simp [pyContains, hsplit]]
  simp [hsplit]

/-- Witness for C8 (amended) at `"1..=5"`: the marked upper bound loses
only its marker character and renders inclusively. -/
theorem c8_witness : render_range "1..=5" 7 = ["Range: [1 - 5]"] := by
  have h := c8_range_amended "1..=5" 7 "1" "=5" [] (by rfl)
  exact h.trans (by rfl)

/-! ### Claim C9 -/

/-- C9: a freshly parsed `Registry` has no instance-level `written`
attribute, so its `written` lookups resolve to the class-level dict
created once at class-definition time; a record made through one parsed
registry is therefore visible through any other parsed registry, until
an explicit reset (`registries[...].written = dict()`) rebinds a fresh
dict on one specific registry — after which that registry sees an empty
dict while the other still sees the shared (mutated) class dict. -/
theorem c9_class_level_written_shared
    (root1 root2 : Element) (r1 r2 : Registry) (ns1 ns2 : List String)
    (h1 : parseRegistry root1 = .ok (r1, ns1))
    (h2 : parseRegistry root2 = .ok (r2, ns2))
    (h : WrittenHeap) (d : Dict String String) (tl : List (Dict String String))
    (hd : h.dicts = d :: tl) (k v : String) :
    r1.writtenAttr = none
    ∧ r2.writtenAttr = none
    ∧ dictGet ((h.setWritten r1 k v).viewWritten r2) k = some v
    ∧ dictGet ((resetWritten (h.setWritten r1 k v) r2).1.viewWritten
        (resetWritten (h.setWritten r1 k v) r2).2) k = none
    ∧ (resetWritten (h.setWritten r1 k v) r2).1.viewWritten r1
        = (h.setWritten r1 k v).viewWritten r1 := by
  have ha1 : r1.writtenAttr = none := parseRegistry_writtenAttr h1
  have ha2 : r2.writtenAttr = none := parseRegistry_writtenAttr h2
  refine ⟨ha1, ha2, ?_, ?_, ?_⟩
  · simp [WrittenHeap.setWritten, WrittenHeap.viewWritten, writtenIndex, ha1, ha2, hd,
      dictGet_dictSet_self]
  · simp [WrittenHeap.setWritten, WrittenHeap.viewWritten, resetWritten, writtenIndex,
      ha1, ha2, hd, List.getElem?_concat_length, dictGet]
  · simp [WrittenHeap.setWritten, WrittenHeap.viewWritten, resetWritten, writtenIndex,
      ha1, ha2, hd]

/-- An empty registry document for the C9 witness. -/
def c9Root : Element := .mk "registry" [] none [] none

def c9Registry : Registry := { apis := [], sets := [], groups := [], writtenAttr := none }

/-- The class-level heap right after class definition: one empty dict. -/
def c9Heap : WrittenHeap := ⟨[[]]⟩

/-- Witness for C9: two registries parsed from the same empty document
share the class-level dict — a record through the first is seen through
the second, disappears from the second's view after resetting the
second, and is still seen through the first. -/
theorem c9_witness :
    dictGet ((c9Heap.setWritten c9Registry "AL_X" "S1").viewWritten c9Registry) "AL_X"
      = some "S1"
    ∧ dictGet ((resetWritten (c9Heap.setWritten c9Registry "AL_X" "S1") c9Registry).1.viewWritten
        (resetWritten (c9Heap.setWritten c9Registry "AL_X" "S1") c9Registry).2) "AL_X" = none
    ∧ (resetWritten (c9Heap.setWritten c9Registry "AL_X" "S1") c9Registry).1.viewWritten
        c9Registry
      = (c9Heap.setWritten c9Registry "AL_X" "S1").viewWritten c9Registry := by
  have h := c9_class_level_written_shared c9Root c9Root c9Registry c9Registry [] []
    (by rfl) (by rfl) c9Heap [] [] rfl "AL_X" "S1"
  exact ⟨h.2.2.1, h.2.2.2.1, h.2.2.2.2⟩

end OpenALGen
